import Mathlib

/-!
Verification of the retrieval-augmented compliance-checking core
(`compliance_checker.py`): the `ComplianceChecker` class with its two entry
points `check_compliance` and `answer_question`, rule loading at
construction, prompt assembly, and result packaging.

Shallow embedding conventions:
* A retrieved document (`langchain` `Document`) is a `Doc` with `page_content`
  and a string-keyed `metadata` association list.
* The vector store and the LLM are the injected capabilities of the class:
  `similarity_search : String → Nat → List Doc` and
  `generate_content : String → Except GenerationError String` (a raising call
  is an `.error`, which the Python code never catches).
* The rule mapping produced by `json.load` is a `List (String × RuleRecord)`
  preserving the file's key order; a `RuleRecord` models one JSON record whose
  expected fields may each be absent (`Option`), since `json.load` imposes no
  schema.
* The Python result dicts are association lists `List (String × PyVal)` in
  insertion order, so that which keys are present (and in which order) is part
  of the model.
-/

namespace PolicyRAG

set_option maxRecDepth 8000

/-- One retrieved passage: `doc.page_content` plus `doc.metadata`. -/
structure Doc where
  page_content : String
  metadata : List (String × String)
deriving DecidableEq

/-- One rule record as `json.load` may produce it: every expected field can be
absent, and `severity` is an arbitrary string when present. -/
structure RuleRecord where
  name : Option String
  description : Option String
  severity : Option String
  check : Option String
  remediation : Option String
  related_columns : Option (List String)
deriving DecidableEq

/-- A value stored in one of the Python result dicts. -/
inductive PyVal where
  | str : String → PyVal
  | strList : List String → PyVal
  | nat : Nat → PyVal
deriving DecidableEq

/-- Failure raised by the generation backend (`llm.generate_content`). -/
structure GenerationError where
  msg : String
deriving DecidableEq

/-- Failure kind the spec ascribes to rule loading. -/
inductive LoadError where
  | invalidRule : String → LoadError
deriving DecidableEq

/-- The `ComplianceChecker` object: the two injected capabilities and the rule
mapping loaded at construction. -/
structure ComplianceChecker where
  similarity_search : String → Nat → List Doc
  generate_content : String → Except GenerationError String
  compliance_rules : List (String × RuleRecord)

/-- `ComplianceChecker.__init__` rule loading: `json.load(f)` stores the parsed
mapping as-is; the constructor performs no record-level validation. -/
def loadRules (source : List (String × RuleRecord)) :
    Except LoadError (List (String × RuleRecord)) :=
  .ok source

/-- Python `sep.join(l)`. -/
def joinSep (sep : String) : List String → String
  | [] => ""
  | [x] => x
  | x :: y :: ys => x ++ sep ++ joinSep sep (y :: ys)

/-- The passage delimiter used for the context: `"\n\n---\n\n".join(...)`. -/
def hrDelim : String := "\n\n---\n\n"

/-- `doc.metadata.get("filename", "Unknown")`. -/
def sourceIdOf (d : Doc) : String :=
  (d.metadata.lookup "filename").getD "Unknown"

/-- Rendering of one optional string field inside `json.dumps(..., indent=2)`
output: present fields give one `"key": "value"` line, absent fields nothing. -/
def optField (k : String) (v : Option String) : List String :=
  match v with
  | some s => ["    \x22" ++ k ++ "\x22: \x22" ++ s ++ "\x22"]
  | none => []

/-- Rendering of the optional `related_columns` list field. -/
def colsField (v : Option (List String)) : List String :=
  match v with
  | some cols =>
      ["    \x22related_columns\x22: [" ++
        joinSep ", " (cols.map (fun c => "\x22" ++ c ++ "\x22")) ++ "]"]
  | none => []

/-- The serialized lines of one rule record (all present fields, in the
record's field order). -/
def recordLines (r : RuleRecord) : List String :=
  optField "name" r.name ++ optField "description" r.description ++
  optField "severity" r.severity ++ optField "check" r.check ++
  optField "remediation" r.remediation ++ colsField r.related_columns

/-- `json.dumps` of one rule record (indent level 2). -/
def dumpsRecord (r : RuleRecord) : String :=
  "\x7b\n" ++ joinSep ",\n" (recordLines r) ++ "\n  \x7d"

/-- The serialized entry of one `(ruleId, record)` pair inside the top-level
object. -/
def ruleEntry (p : String × RuleRecord) : String :=
  "  \x22" ++ p.1 ++ "\x22: " ++ dumpsRecord p.2

/-- `json.dumps(self.compliance_rules, indent=2)`: the whole rule mapping as
structured text, every rule and every present field included, in order. -/
def dumpsRules (rules : List (String × RuleRecord)) : String :=
  "\x7b\n" ++ joinSep ",\n" (rules.map ruleEntry) ++ "\n\x7d"

/-- The fixed five-part response directive ending the compliance prompt. -/
def complianceDirective : String :=
  "\n\nProvide a detailed compliance analysis with:\n1. COMPLIANCE STATUS: [COMPLIANT/NON-COMPLIANT/PARTIAL]\n2. APPLICABLE RULES: Which rules apply\n3. EVIDENCE: Specific quotes from contracts\n4. VIOLATIONS: Any issues found\n5. REMEDIATION: Steps to fix issues\n\nResponse:\n"

/-- The compliance-mode f-string of `check_compliance`, with the context string
already built. -/
def buildCompliancePrompt (rules : List (String × RuleRecord))
    (context query : String) : String :=
  "\nYou are a legal compliance expert analyzing contracts.\n\nCOMPLIANCE RULES:\n" ++
  dumpsRules rules ++
  "\n\nCONTRACT SECTIONS:\n" ++ context ++
  "\n\nQUERY: " ++ query ++ complianceDirective

/-- Compliance prompt assembly from the retrieved passages: context is the
join of all `page_content` in retrieval order, separated by `hrDelim`. -/
def assembleCompliancePrompt (rules : List (String × RuleRecord))
    (docs : List Doc) (query : String) : String :=
  buildCompliancePrompt rules (joinSep hrDelim (docs.map Doc.page_content)) query

/-- The Q&A-mode f-string of `answer_question`, with the context string
already built. -/
def buildQAPrompt (context question : String) : String :=
  "\nBased on the following contract information, answer the question accurately.\n\nCONTRACT INFORMATION:\n" ++
  context ++
  "\n\nQUESTION: " ++ question ++
  "\n\nProvide a clear, detailed answer with specific references.\n\nAnswer:\n"

/-- Q&A prompt assembly from the retrieved passages. -/
def assembleQAPrompt (docs : List Doc) (question : String) : String :=
  buildQAPrompt (joinSep hrDelim (docs.map Doc.page_content)) question

/-- `ComplianceChecker.check_compliance(query, top_k)`: retrieve, build the
compliance prompt, call the backend (whose failure propagates), and package
`{query, response, sources, num_sources}`. -/
def ComplianceChecker.check_compliance (c : ComplianceChecker)
    (query : String) (top_k : Nat) :
    Except GenerationError (List (String × PyVal)) :=
  match c.generate_content
      (assembleCompliancePrompt c.compliance_rules
        (c.similarity_search query top_k) query) with
  | .error e => .error e
  | .ok response =>
      .ok [("query", .str query),
           ("response", .str response),
           ("sources", .strList ((c.similarity_search query top_k).map sourceIdOf)),
           ("num_sources", .nat (c.similarity_search query top_k).length)]

/-- `ComplianceChecker.answer_question(question, top_k)`: retrieve, build the
Q&A prompt, call the backend, and package `{question, answer, sources}`. -/
def ComplianceChecker.answer_question (c : ComplianceChecker)
    (question : String) (top_k : Nat) :
    Except GenerationError (List (String × PyVal)) :=
  match c.generate_content
      (assembleQAPrompt (c.similarity_search question top_k) question) with
  | .error e => .error e
  | .ok response =>
      .ok [("question", .str question),
           ("answer", .str response),
           ("sources", .strList ((c.similarity_search question top_k).map sourceIdOf))]

/-- Whether one record satisfies the validation the spec describes: all
required fields present and `severity` one of the three enumerated values. -/
def recordValid (r : RuleRecord) : Bool :=
  r.name.isSome && r.description.isSome && r.severity.isSome &&
  r.check.isSome && r.remediation.isSome && r.related_columns.isSome &&
  (match r.severity with
   | some "HIGH" => true
   | some "MEDIUM" => true
   | some "LOW" => true
   | _ => false)

/-- Spec-side loading for comparison with `loadRules` (refinement check): the
spec's §4.1 says loading validates every record and fails with `InvalidRule`
naming the offending id. -/
def specValidateRules (source : List (String × RuleRecord)) :
    Except LoadError Unit :=
  match source.find? (fun p => !(recordValid p.2)) with
  | some p => .error (.invalidRule p.1)
  | none => .ok ()

/-- `t` occurs verbatim as a contiguous substring of `s`. -/
@[reducible] def strContains (s t : String) : Prop :=
  List.IsInfix t.data s.data

theorem strContains_refl (s : String) : strContains s s :=
  List.infix_refl s.data

theorem strContains_append_of_left (a b t : String)
    (h : strContains a t) : strContains (a ++ b) t := by
  obtain ⟨u, v, huv⟩ := h
  exact ⟨u, v ++ b.data, by simp [String.data_append, ← huv]⟩

theorem strContains_append_of_right (a b t : String)
    (h : strContains b t) : strContains (a ++ b) t := by
  obtain ⟨u, v, huv⟩ := h
  exact ⟨a.data ++ u, v, by simp [String.data_append, ← huv]⟩

theorem strContains_joinSep (sep : String) (l : List String) (x : String)
    (hx : x ∈ l) : strContains (joinSep sep l) x := by
  induction l with
  | nil => cases hx
  | cons y ys ih =>
    cases ys with
    | nil =>
      rcases List.mem_singleton.mp hx with rfl
      exact strContains_refl x
    | cons z zs =>
      rcases List.mem_cons.mp hx with rfl | hmem
      · show strContains (x ++ sep ++ joinSep sep (z :: zs)) x
        exact strContains_append_of_left _ _ _
          (strContains_append_of_left _ _ _ (strContains_refl x))
      · show strContains (y ++ sep ++ joinSep sep (z :: zs)) x
        exact strContains_append_of_right _ _ _ (ih hmem)

/-- The compliance prompt contains the full serialized entry of every rule of
the registry. -/
theorem strContains_dumpsRules (rules : List (String × RuleRecord))
    (p : String × RuleRecord) (hp : p ∈ rules) :
    strContains (dumpsRules rules) (ruleEntry p) := by
  unfold dumpsRules
  exact strContains_append_of_left _ _ _
    (strContains_append_of_right _ _ _
      (strContains_joinSep _ _ _ (List.mem_map_of_mem ruleEntry hp)))

section Fixtures

/-- A demo passage carrying a source filename. -/
def demoDoc : Doc :=
  { page_content := "Party A is Acme Corp.",
    metadata := [("filename", "c1.txt")] }

/-- A demo passage whose metadata has no filename entry. -/
def bareDoc : Doc :=
  { page_content := "Confidential terms apply.",
    metadata := [("page", "2")] }

/-- A fully-populated demo rule record. -/
def demoRule : RuleRecord :=
  { name := some "Party ID",
    description := some "Parties must be identified",
    severity := some "HIGH",
    check := some "Names present",
    remediation := some "Add party names",
    related_columns := some ["party_a", "party_b"] }

/-- A rule record whose severity is outside the enumerated set. -/
def badRule : RuleRecord :=
  { name := some "Party ID",
    description := some "Parties must be identified",
    severity := some "CRITICAL",
    check := some "Names present",
    remediation := some "Add party names",
    related_columns := some [] }

/-- A demo rule mapping. -/
def demoRules : List (String × RuleRecord) := [("R1", demoRule)]

/-- A checker whose index returns one passage and whose backend succeeds. -/
def demoChecker : ComplianceChecker :=
  { similarity_search := fun _ k => if k = 0 then [] else [demoDoc],
    generate_content := fun _ => .ok "1. COMPLIANCE STATUS: COMPLIANT",
    compliance_rules := demoRules }

/-- A checker whose backend raises on every prompt. -/
def failChecker : ComplianceChecker :=
  { similarity_search := fun _ k => if k = 0 then [] else [demoDoc],
    generate_content := fun _ => .error { msg := "quota exceeded" },
    compliance_rules := demoRules }

/-- A checker whose index returns no passages. -/
def emptyChecker : ComplianceChecker :=
  { similarity_search := fun _ _ => [],
    generate_content := fun _ => .ok "No relevant sections found.",
    compliance_rules := demoRules }

/-- A checker whose index returns a passage lacking a filename, plus a
duplicate of a named passage. -/
def mixedChecker : ComplianceChecker :=
  { similarity_search := fun _ _ => [demoDoc, bareDoc, demoDoc],
    generate_content := fun _ => .ok "See sections.",
    compliance_rules := demoRules }

end Fixtures

/-- Inversion for a successful `check_compliance` call: the backend succeeded
on the compliance prompt and the result is the packaged dict. -/
theorem check_compliance_ok_elim (c : ComplianceChecker) (q : String) (k : Nat)
    (r : List (String × PyVal)) (h : c.check_compliance q k = .ok r) :
    ∃ resp, c.generate_content
        (assembleCompliancePrompt c.compliance_rules (c.similarity_search q k) q) = .ok resp ∧
      r = [("query", .str q),
           ("response", .str resp),
           ("sources", .strList ((c.similarity_search q k).map sourceIdOf)),
           ("num_sources", .nat (c.similarity_search q k).length)] := by
  unfold ComplianceChecker.check_compliance at h
  cases hg : c.generate_content
      (assembleCompliancePrompt c.compliance_rules (c.similarity_search q k) q) with
  | error e => rw [hg] at h; cases h
  | ok resp => rw [hg] at h; simp at h; exact ⟨resp, rfl, h.symm⟩

/-- Inversion for a successful `answer_question` call. -/
theorem answer_question_ok_elim (c : ComplianceChecker) (q : String) (k : Nat)
    (r : List (String × PyVal)) (h : c.answer_question q k = .ok r) :
    ∃ resp, c.generate_content
        (assembleQAPrompt (c.similarity_search q k) q) = .ok resp ∧
      r = [("question", .str q),
           ("answer", .str resp),
           ("sources", .strList ((c.similarity_search q k).map sourceIdOf))] := by
  unfold ComplianceChecker.answer_question at h
  cases hg : c.generate_content (assembleQAPrompt (c.similarity_search q k) q) with
  | error e => rw [hg] at h; cases h
  | ok resp => rw [hg] at h; simp at h; exact ⟨resp, rfl, h.symm⟩

/-- Claim C1: whenever the Document Index honours its bound (at most `k`
passages), a successful `check_compliance(q, k)` result has
`num_sources = len(sources)` and `num_sources ≤ k`. -/
theorem checkCompliance_sourceCount_bounded (c : ComplianceChecker)
    (q : String) (k : Nat) (r : List (String × PyVal))
    (hk : (c.similarity_search q k).length ≤ k)
    (h : c.check_compliance q k = .ok r) :
    ∃ n ss, r.lookup "num_sources" = some (.nat n) ∧
      r.lookup "sources" = some (.strList ss) ∧
      n = ss.length ∧ n ≤ k := by
  obtain ⟨resp, _, rfl⟩ := check_compliance_ok_elim c q k r h
  exact ⟨(c.similarity_search q k).length, (c.similarity_search q k).map sourceIdOf,
    rfl, rfl, (List.length_map _ _).symm, hk⟩

/-- The result dict of the C1 witness run. -/
def demoPayload : List (String × PyVal) :=
  [("query", .str "Are the contracting parties identified?"),
   ("response", .str "1. COMPLIANCE STATUS: COMPLIANT"),
   ("sources", .strList ["c1.txt"]),
   ("num_sources", .nat 1)]

/-- Witness for C1 at a concrete checker, query and `k = 1`. -/
theorem checkCompliance_sourceCount_bounded_witness :
    ∃ n ss, demoPayload.lookup "num_sources" = some (.nat n) ∧
      demoPayload.lookup "sources" = some (.strList ss) ∧
      n = ss.length ∧ n ≤ 1 :=
  checkCompliance_sourceCount_bounded demoChecker
    "Are the contracting parties identified?" 1 demoPayload (by decide) rfl

/-- A rule source containing a record that violates the validation the spec
describes (severity `"CRITICAL"`). -/
def badSource : List (String × RuleRecord) := [("R1", badRule)]

/-- Claim C2 counterexample: `badSource` contains a record failing the spec's
validation, yet loading succeeds — the constructor never raises `InvalidRule`. -/
theorem loadRules_counterexample :
    recordValid badRule = false ∧
    specValidateRules badSource = .error (.invalidRule "R1") ∧
    loadRules badSource = .ok badSource :=
  ⟨by decide, rfl, rfl⟩

/-- Claim C2 amended: rule loading performs no record-level validation —
`json.load` stores any parsed source as-is and loading always succeeds, even
when a record lacks required fields or has an out-of-range severity. -/
theorem loadRules_accepts_any_source (source : List (String × RuleRecord)) :
    loadRules source = .ok source := rfl

/-- Claim C3: when the Generation Backend raises on the compliance prompt,
`check_compliance` propagates exactly that failure and produces no result. -/
theorem checkCompliance_propagates_generation_failure (c : ComplianceChecker)
    (q : String) (k : Nat) (e : GenerationError)
    (h : c.generate_content
        (assembleCompliancePrompt c.compliance_rules (c.similarity_search q k) q) = .error e) :
    c.check_compliance q k = .error e := by
  unfold ComplianceChecker.check_compliance
  rw [h]

/-- Witness for C3 at a checker whose backend always raises. -/
theorem checkCompliance_propagates_generation_failure_witness :
    failChecker.check_compliance "Are effective dates given?" 5 =
      .error { msg := "quota exceeded" } :=
  checkCompliance_propagates_generation_failure failChecker
    "Are effective dates given?" 5 { msg := "quota exceeded" } rfl

/-- Claim C4: when retrieval returns zero passages, `check_compliance` does
not short-circuit: it still calls the backend on the empty-context prompt, and
(when the backend succeeds) packages `sources = []`, `num_sources = 0`. -/
theorem checkCompliance_zero_passages (c : ComplianceChecker)
    (q : String) (k : Nat) (h : c.similarity_search q k = []) :
    c.check_compliance q k =
      (c.generate_content (buildCompliancePrompt c.compliance_rules "" q)).map
        (fun resp =>
          [("query", PyVal.str q),
           ("response", PyVal.str resp),
           ("sources", PyVal.strList []),
           ("num_sources", PyVal.nat 0)]) := by
  unfold ComplianceChecker.check_compliance assembleCompliancePrompt
  rw [h]
  have hj : joinSep hrDelim (List.map Doc.page_content []) = "" := rfl
  rw [hj]
  cases c.generate_content (buildCompliancePrompt c.compliance_rules "" q) <;>
    simp [Except.map]

/-- Witness for C4 at a checker whose index is empty and a `k = 0` request. -/
theorem checkCompliance_zero_passages_witness :
    emptyChecker.check_compliance "Any liability caps?" 0 =
      (emptyChecker.generate_content
          (buildCompliancePrompt emptyChecker.compliance_rules "" "Any liability caps?")).map
        (fun resp =>
          [("query", PyVal.str "Any liability caps?"),
           ("response", PyVal.str resp),
           ("sources", PyVal.strList []),
           ("num_sources", PyVal.nat 0)]) :=
  checkCompliance_zero_passages emptyChecker "Any liability caps?" 0 rfl

/-- Claim C5: both entry points report `sources` as exactly the map of
`sourceId` over the retrieved passages — one entry per passage, retrieval
order preserved, duplicates kept. -/
theorem sources_preserve_retrieval_order (c : ComplianceChecker)
    (q : String) (k : Nat) (r r' : List (String × PyVal))
    (h1 : c.check_compliance q k = .ok r)
    (h2 : c.answer_question q k = .ok r') :
    r.lookup "sources" = some (.strList ((c.similarity_search q k).map sourceIdOf)) ∧
    r'.lookup "sources" = some (.strList ((c.similarity_search q k).map sourceIdOf)) := by
  obtain ⟨resp, _, rfl⟩ := check_compliance_ok_elim c q k r h1
  obtain ⟨resp', _, rfl⟩ := answer_question_ok_elim c q k r' h2
  exact ⟨rfl, rfl⟩

/-- Witness for C5 at a checker returning a duplicated passage list (the
mapped source list keeps the duplicate and the retrieval order). -/
theorem sources_preserve_retrieval_order_witness :
    ((mixedChecker.similarity_search "Q" 3).map sourceIdOf =
      ["c1.txt", "Unknown", "c1.txt"]) ∧
    ∃ r r', mixedChecker.check_compliance "Q" 3 = .ok r ∧
      mixedChecker.answer_question "Q" 3 = .ok r' ∧
      r.lookup "sources" = some (.strList ((mixedChecker.similarity_search "Q" 3).map sourceIdOf)) ∧
      r'.lookup "sources" = some (.strList ((mixedChecker.similarity_search "Q" 3).map sourceIdOf)) :=
  ⟨by decide, _, _, rfl, rfl,
    sources_preserve_retrieval_order mixedChecker "Q" 3 _ _ rfl rfl⟩

/-- Claim C6: prompt assembly is deterministic — identical rule catalogue,
passages and query/question always yield byte-identical compliance and Q&A
prompt text; no hidden state or randomness is involved. -/
theorem prompt_assembly_deterministic (rules₁ rules₂ : List (String × RuleRecord))
    (docs₁ docs₂ : List Doc) (q₁ q₂ : String)
    (hr : rules₁ = rules₂) (hd : docs₁ = docs₂) (hq : q₁ = q₂) :
    assembleCompliancePrompt rules₁ docs₁ q₁ = assembleCompliancePrompt rules₂ docs₂ q₂ ∧
    assembleQAPrompt docs₁ q₁ = assembleQAPrompt docs₂ q₂ := by
  subst hr; subst hd; subst hq
  exact ⟨rfl, rfl⟩

/-- Witness for C6 at concrete rules, passages and query. -/
theorem prompt_assembly_deterministic_witness :
    assembleCompliancePrompt demoRules [demoDoc] "Q" =
      assembleCompliancePrompt demoRules [demoDoc] "Q" ∧
    assembleQAPrompt [demoDoc] "Q" = assembleQAPrompt [demoDoc] "Q" :=
  prompt_assembly_deterministic demoRules demoRules [demoDoc] [demoDoc] "Q" "Q"
    rfl rfl rfl

/-- Every rule's serialized entry occurs in the compliance prompt, whatever
the context and query. -/
theorem strContains_buildCompliancePrompt_rules (rules : List (String × RuleRecord))
    (context query : String) (p : String × RuleRecord) (hp : p ∈ rules) :
    strContains (buildCompliancePrompt rules context query) (ruleEntry p) := by
  unfold buildCompliancePrompt
  exact strContains_append_of_left _ _ _ (strContains_append_of_left _ _ _
    (strContains_append_of_left _ _ _ (strContains_append_of_left _ _ _
      (strContains_append_of_left _ _ _ (strContains_append_of_right _ _ _
        (strContains_dumpsRules rules p hp))))))

/-- Anything contained in the context string is contained in the compliance
prompt built from it. -/
theorem strContains_buildCompliancePrompt_context
    (rules : List (String × RuleRecord)) (context query t : String)
    (h : strContains context t) :
    strContains (buildCompliancePrompt rules context query) t := by
  unfold buildCompliancePrompt
  exact strContains_append_of_left _ _ _ (strContains_append_of_left _ _ _
    (strContains_append_of_left _ _ _ (strContains_append_of_right _ _ _ h)))

/-- Anything contained in the context string is contained in the Q&A prompt
built from it. -/
theorem strContains_buildQAPrompt_context (context question t : String)
    (h : strContains context t) :
    strContains (buildQAPrompt context question) t := by
  unfold buildQAPrompt
  exact strContains_append_of_left _ _ _ (strContains_append_of_left _ _ _
    (strContains_append_of_left _ _ _ (strContains_append_of_right _ _ _ h)))

/-- Claim C7: the compliance prompt serializes the whole rule registry (one
full entry per rule, unfiltered), then the passage contents joined in
retrieval order by the horizontal-rule delimiter, then the query, then the
fixed directive, whose text carries the five numbered sections with the
status tag set. -/
theorem compliancePrompt_structure_full (rules : List (String × RuleRecord))
    (docs : List Doc) (query : String) :
    (∀ p ∈ rules, strContains (assembleCompliancePrompt rules docs query) (ruleEntry p)) ∧
    (∃ A, assembleCompliancePrompt rules docs query =
        A ++ "\n\nCONTRACT SECTIONS:\n" ++
          joinSep hrDelim (docs.map Doc.page_content) ++
          "\n\nQUERY: " ++ query ++ complianceDirective) ∧
    strContains complianceDirective
      "1. COMPLIANCE STATUS: [COMPLIANT/NON-COMPLIANT/PARTIAL]" ∧
    strContains complianceDirective "2. APPLICABLE RULES" ∧
    strContains complianceDirective "3. EVIDENCE" ∧
    strContains complianceDirective "4. VIOLATIONS" ∧
    strContains complianceDirective "5. REMEDIATION" := by
  refine ⟨fun p hp => strContains_buildCompliancePrompt_rules rules _ query p hp,
    ⟨"\nYou are a legal compliance expert analyzing contracts.\n\nCOMPLIANCE RULES:\n" ++
      dumpsRules rules, rfl⟩, ?_, ?_, ?_, ?_, ?_⟩ <;> decide

/-- Witness for C7: the demo rule's entry occurs in a concrete compliance
prompt. -/
theorem compliancePrompt_structure_full_witness :
    strContains (assembleCompliancePrompt demoRules [demoDoc] "Q")
      (ruleEntry ("R1", demoRule)) ∧
    strContains complianceDirective
      "1. COMPLIANCE STATUS: [COMPLIANT/NON-COMPLIANT/PARTIAL]" :=
  ⟨(compliancePrompt_structure_full demoRules [demoDoc] "Q").1 ("R1", demoRule)
      (by decide),
   (compliancePrompt_structure_full demoRules [demoDoc] "Q").2.2.1⟩

/-- The Q&A-mode result dict of the witness runs. -/
def mixedQAPayload : List (String × PyVal) :=
  [("question", .str "Q"),
   ("answer", .str "See sections."),
   ("sources", .strList ["c1.txt", "Unknown", "c1.txt"])]

/-- Claim C8: a successful `answer_question` result has exactly the keys
`question`, `answer`, `sources` (in that order) and no `num_sources` key. -/
theorem answerQuestion_result_fields (c : ComplianceChecker) (q : String)
    (k : Nat) (r : List (String × PyVal)) (h : c.answer_question q k = .ok r) :
    r.map Prod.fst = ["question", "answer", "sources"] ∧
    "num_sources" ∉ r.map Prod.fst := by
  obtain ⟨resp, _, rfl⟩ := answer_question_ok_elim c q k r h
  have hmem : ("num_sources" : String) ∉ (["question", "answer", "sources"] : List String) := by
    decide
  exact ⟨rfl, hmem⟩

/-- Witness for C8 at a concrete checker and question. -/
theorem answerQuestion_result_fields_witness :
    mixedQAPayload.map Prod.fst = ["question", "answer", "sources"] ∧
    "num_sources" ∉ mixedQAPayload.map Prod.fst :=
  answerQuestion_result_fields mixedChecker "Q" 3 mixedQAPayload rfl

/-- The compliance-mode result dict of the witness runs. -/
def mixedPayload : List (String × PyVal) :=
  [("query", .str "Q"),
   ("response", .str "See sections."),
   ("sources", .strList ["c1.txt", "Unknown", "c1.txt"]),
   ("num_sources", .nat 3)]

/-- Claim C9: both entry points build `sources` totally (one entry per
passage), and a passage whose metadata has no `filename` key contributes the
sentinel `"Unknown"`. -/
theorem missing_filename_defaults_unknown (c : ComplianceChecker) (q : String)
    (k : Nat) (r r' : List (String × PyVal))
    (h1 : c.check_compliance q k = .ok r)
    (h2 : c.answer_question q k = .ok r') :
    ∃ ss, r.lookup "sources" = some (.strList ss) ∧
      r'.lookup "sources" = some (.strList ss) ∧
      ss.length = (c.similarity_search q k).length ∧
      ∀ (i : Nat) (d : Doc), (c.similarity_search q k)[i]? = some d →
        d.metadata.lookup "filename" = none → ss[i]? = some "Unknown" := by
  obtain ⟨resp, _, rfl⟩ := check_compliance_ok_elim c q k r h1
  obtain ⟨resp', _, rfl⟩ := answer_question_ok_elim c q k r' h2
  refine ⟨(c.similarity_search q k).map sourceIdOf, rfl, rfl, ?_, ?_⟩
  · exact List.length_map _ _
  · intro i d hd hnone
    rw [List.getElem?_map, hd]
    simp [sourceIdOf, hnone]

/-- Witness for C9: the filename-less passage at index 1 yields `"Unknown"`. -/
theorem missing_filename_defaults_unknown_witness :
    bareDoc.metadata.lookup "filename" = none ∧
    ∃ ss, mixedPayload.lookup "sources" = some (PyVal.strList ss) ∧
      ss[1]? = some "Unknown" := by
  obtain ⟨ss, hs, _, _, hidx⟩ :=
    missing_filename_defaults_unknown mixedChecker "Q" 3 mixedPayload
      mixedQAPayload rfl rfl
  exact ⟨rfl, ss, hs, hidx 1 bareDoc rfl rfl⟩

/-- Claim C10: the user input occurs verbatim (as a contiguous substring) in
the prompt of its mode, and every retrieved passage's content occurs verbatim
in both prompts — no escaping, truncation or sanitization before injection. -/
theorem prompts_contain_inputs_verbatim (rules : List (String × RuleRecord))
    (docs : List Doc) (q : String) :
    strContains (assembleCompliancePrompt rules docs q) q ∧
    strContains (assembleQAPrompt docs q) q ∧
    ∀ d ∈ docs,
      strContains (assembleCompliancePrompt rules docs q) d.page_content ∧
      strContains (assembleQAPrompt docs q) d.page_content := by
  refine ⟨?_, ?_, ?_⟩
  · unfold assembleCompliancePrompt buildCompliancePrompt
    exact strContains_append_of_left _ _ _
      (strContains_append_of_right _ _ _ (strContains_refl q))
  · unfold assembleQAPrompt buildQAPrompt
    exact strContains_append_of_left _ _ _
      (strContains_append_of_right _ _ _ (strContains_refl q))
  · intro d hd
    have hctx : strContains (joinSep hrDelim (docs.map Doc.page_content))
        d.page_content :=
      strContains_joinSep _ _ _ (List.mem_map_of_mem Doc.page_content hd)
    exact ⟨strContains_buildCompliancePrompt_context rules _ q _ hctx,
      strContains_buildQAPrompt_context _ q _ hctx⟩

/-- Witness for C10 at a concrete query and passage. -/
theorem prompts_contain_inputs_verbatim_witness :
    strContains (assembleCompliancePrompt demoRules [demoDoc] "Q?") "Q?" ∧
    strContains (assembleQAPrompt [demoDoc] "Q?") demoDoc.page_content :=
  ⟨(prompts_contain_inputs_verbatim demoRules [demoDoc] "Q?").1,
   ((prompts_contain_inputs_verbatim demoRules [demoDoc] "Q?").2.2 demoDoc
      (by decide)).2⟩

end PolicyRAG
